import Mathlib

/-
Verification development for the AirQualityStation firmware.

Shallow embedding of src/constants.py, src/aq_magtag.py, src/code.py and
src/boot.py.  Persistent sleep memory is modeled as a record with one
natural-number field per slot that the backoff logic uses, following the
integer data model of the specification.  Non-returning sleep calls and
raised errors (ConnectionError, KeyError) are modeled as explicit outcome
values.  Peripheral effects that carry no data relevant to control flow
(neopixel colors, tones, display rendering) are omitted; the uplink pushes
performed inside the averaging loop are recorded explicitly in the result
so that statements about side effects can be made.  Numeric sensor values
are modeled as rationals.
-/

/-- constants.py line 8: REFRESH_TIME = 10*60, seconds between refreshes. -/
def REFRESH_TIME : Nat := 10 * 60

/-- constants.py line 15: MINIMUM_BACKOFF = 15. -/
def MINIMUM_BACKOFF : Nat := 15

/-- constants.py line 18: MAXIMUM_BACKOFF = 60 * 5. -/
def MAXIMUM_BACKOFF : Nat := 60 * 5

/-- constants.py line 21: MAX_BACKOFF_COUNT = 60 / 5.  In Python this true
division yields the float 12.0 exactly, and its only use is the comparison
backoff_count >= MAX_BACKOFF_COUNT against a nonnegative integer counter,
which agrees with comparison against the integer 12; the constant is
therefore modeled as natural-number division 60 / 5 = 12. -/
def MAX_BACKOFF_COUNT : Nat := 60 / 5

/-- The two sleep-memory slots used by the backoff logic
(constants.py lines 11 and 12 fix the slot indices; the slots themselves
are the fields of this record): slot SLEEP_MEMORY_SLOT_BACKOFF holds the
current backoff delay in seconds and slot SLEEP_MEMORY_SLOT_BACKOFF_TIMES
holds the backoff cycle count. -/
structure SleepMemory where
  backoff : Nat
  backoffTimes : Nat
  deriving DecidableEq, Repr

/-- aq_magtag.py lines 37 to 42 (and code.py lines 65 to 67): clear_backoff
writes 0 into both backoff slots of the sleep memory. -/
def clear_backoff (_mem : SleepMemory) : SleepMemory := ⟨0, 0⟩

/-- The two ways the device can block in deep sleep: on the one-shot
backoff time alarm, or on the pin alarm plus the normal refresh time alarm
(aq_magtag.py lines 316 to 324). -/
inductive SleepOutcome where
  | backoffSleep (seconds : Nat)
  | normalSleep
  deriving DecidableEq, Repr

/-- aq_magtag.py lines 305 to 324: deep_sleep powers peripherals down and
then either sleeps on a backoff alarm of the length stored in the backoff
slot (when called with backoff=True) or sleeps on the pin alarm and the
normal refresh time alarm.  The call never returns; it is modeled by the
outcome value.  The sleep memory is not modified. -/
def deep_sleep (backoff : Bool) (mem : SleepMemory) : SleepOutcome :=
  if backoff then SleepOutcome.backoffSleep mem.backoff else SleepOutcome.normalSleep

/-- Outcome of deep_sleep_exponential_backoff: either the raised
ConnectionError (the fatal unrecoverable-backoff fault) or a transition
into deep sleep. -/
inductive BackoffOutcome where
  | fatal
  | sleeps (o : SleepOutcome)
  deriving DecidableEq, Repr

/-- aq_magtag.py lines 326 to 344 (identical logic in code.py lines 49 to
62): deep_sleep_exponential_backoff reads both backoff slots, initializes
them to (MINIMUM_BACKOFF, 0) when the stored delay is 0 (Python falsiness
of the integer slot), doubles the delay when it lies strictly between
MINIMUM_BACKOFF and MAXIMUM_BACKOFF, increments the cycle count, persists
both values, and then either raises ConnectionError (cycle count at or
above MAX_BACKOFF_COUNT) or enters backoff deep sleep.  The returned pair
is the persisted memory together with the outcome. -/
def deep_sleep_exponential_backoff (mem : SleepMemory) : SleepMemory × BackoffOutcome :=
  let sleep_time := mem.backoff
  let backoff_count := mem.backoffTimes
  let sleep_time1 := if sleep_time = 0 then MINIMUM_BACKOFF else sleep_time
  let backoff_count1 := if sleep_time = 0 then 0 else backoff_count
  let sleep_time2 :=
    if MINIMUM_BACKOFF < sleep_time1 ∧ sleep_time1 < MAXIMUM_BACKOFF then sleep_time1 * 2
    else sleep_time1
  let backoff_count2 := backoff_count1 + 1
  let mem1 : SleepMemory := ⟨sleep_time2, backoff_count2⟩
  if MAX_BACKOFF_COUNT ≤ backoff_count2 then (mem1, BackoffOutcome.fatal)
  else (mem1, BackoffOutcome.sleeps (deep_sleep true mem1))

/-- The persisted memory after a given number of successive calls to
deep_sleep_exponential_backoff. -/
def escalateIter (mem : SleepMemory) : Nat → SleepMemory
  | 0 => mem
  | n + 1 => (deep_sleep_exponential_backoff (escalateIter mem n)).1

/-- Helper: the memory persisted by one escalation call, written without
the final fatal-or-sleep branch (the memory is written before it). -/
theorem escalate_mem_eq (mem : SleepMemory) :
    (deep_sleep_exponential_backoff mem).1 =
      ⟨if MINIMUM_BACKOFF < (if mem.backoff = 0 then MINIMUM_BACKOFF else mem.backoff) ∧
            (if mem.backoff = 0 then MINIMUM_BACKOFF else mem.backoff) < MAXIMUM_BACKOFF then
          (if mem.backoff = 0 then MINIMUM_BACKOFF else mem.backoff) * 2
        else if mem.backoff = 0 then MINIMUM_BACKOFF else mem.backoff,
        (if mem.backoff = 0 then 0 else mem.backoffTimes) + 1⟩ := by
  unfold deep_sleep_exponential_backoff
  dsimp only
  split <;> split <;> rfl

/-- Claim C1, counterexample: the persisted state with delay_seconds = 240
and cycle_count = 2 has its delay strictly between MINIMUM_BACKOFF and
MAXIMUM_BACKOFF, yet one escalation call doubles it to 480, which exceeds
MAXIMUM_BACKOFF = 300.  The code checks the bound only before doubling and
never caps the doubled value. -/
theorem backoff_doubling_can_exceed_maximum :
    MINIMUM_BACKOFF < 240 ∧ 240 < MAXIMUM_BACKOFF ∧
    (deep_sleep_exponential_backoff ⟨240, 2⟩).1.backoff = 480 ∧
    ¬ (deep_sleep_exponential_backoff ⟨240, 2⟩).1.backoff ≤ MAXIMUM_BACKOFF := by
  decide

/-- Claim C1, amended: for every persisted BackoffState whose delay lies
strictly between MINIMUM_BACKOFF and MAXIMUM_BACKOFF, one escalation call
doubles the delay and increments the cycle count by exactly 1; the
resulting delay can exceed MAXIMUM_BACKOFF but is never more than
2 * (MAXIMUM_BACKOFF - 1) = 598. -/
theorem backoff_escalation_doubles_and_increments
    (d c : Nat) (h1 : MINIMUM_BACKOFF < d) (h2 : d < MAXIMUM_BACKOFF) :
    (deep_sleep_exponential_backoff ⟨d, c⟩).1 = ⟨d * 2, c + 1⟩ ∧
    d * 2 ≤ 2 * (MAXIMUM_BACKOFF - 1) := by
  have hd0 : ¬ (d = 0) := by
    unfold MINIMUM_BACKOFF at h1
    omega
  rw [escalate_mem_eq]
  dsimp only
  rw [if_neg hd0, if_neg hd0]
  rw [if_pos ⟨h1, h2⟩]
  refine ⟨rfl, ?_⟩
  unfold MAXIMUM_BACKOFF at h2 ⊢
  omega

/-- Witness for the amended claim C1, at delay 16 and count 0. -/
theorem backoff_escalation_doubles_and_increments_witness :
    (deep_sleep_exponential_backoff ⟨16, 0⟩).1 = ⟨16 * 2, 0 + 1⟩ ∧
    16 * 2 ≤ 2 * (MAXIMUM_BACKOFF - 1) :=
  backoff_escalation_doubles_and_increments 16 0 (by decide) (by decide)

/-- Claim C2: starting from the inactive persisted state (0, 0), repeated
escalation calls reach a cycle count of at least MAX_BACKOFF_COUNT = 12
after exactly MAX_BACKOFF_COUNT calls and no earlier, and that boundary
call raises the fatal ConnectionError instead of entering sleep, while
every earlier call does enter sleep. -/
theorem backoff_fatal_after_max_count_calls :
    MAX_BACKOFF_COUNT ≤ (escalateIter ⟨0, 0⟩ MAX_BACKOFF_COUNT).backoffTimes ∧
    (∀ k, k < MAX_BACKOFF_COUNT →
      (escalateIter ⟨0, 0⟩ k).backoffTimes < MAX_BACKOFF_COUNT) ∧
    (deep_sleep_exponential_backoff (escalateIter ⟨0, 0⟩ (MAX_BACKOFF_COUNT - 1))).2 =
      BackoffOutcome.fatal ∧
    (∀ k, k < MAX_BACKOFF_COUNT - 1 →
      (deep_sleep_exponential_backoff (escalateIter ⟨0, 0⟩ k)).2 ≠ BackoffOutcome.fatal) := by
  decide

/-- Witness for claim C2, instantiating both bounded quantifiers at call
number 3. -/
theorem backoff_fatal_after_max_count_calls_witness :
    (escalateIter ⟨0, 0⟩ 3).backoffTimes < MAX_BACKOFF_COUNT ∧
    (deep_sleep_exponential_backoff (escalateIter ⟨0, 0⟩ 3)).2 ≠ BackoffOutcome.fatal :=
  ⟨backoff_fatal_after_max_count_calls.2.1 3 (by decide),
   backoff_fatal_after_max_count_calls.2.2.2 3 (by decide)⟩

/-- aq_magtag.py lines 170 to 177 (identical logic in code.py lines 96 to
103): on a pin-alarm wake the neopixel brightness starts at 0.25 and is
then overwritten by each of three independent (non-exclusive) threshold
checks on the ambient light reading: below 700 it becomes 0.5, below 1500
it becomes 0.75, below 2000 it becomes 1.  The Python literals 0.25, 0.5
and 0.75 are the exact rationals 1/4, 1/2 and 3/4. -/
def neopixel_brightness (light : Nat) : ℚ :=
  let b : ℚ := 1 / 4
  let b := if light < 700 then 1 / 2 else b
  let b := if light < 1500 then 3 / 4 else b
  let b := if light < 2000 then 1 else b
  b

/-- Claim C6, counterexample: an ambient light reading of 1000 resolves to
brightness 1, not to the 0.75 demanded by the claim (nor to the 0.5 its
bracket table assigns to the interval from 700 to 1500). -/
theorem brightness_at_1000_is_full :
    neopixel_brightness 1000 = 1 ∧
    neopixel_brightness 1000 ≠ 3 / 4 ∧
    neopixel_brightness 1000 ≠ 1 / 2 := by
  refine ⟨by simp [neopixel_brightness], ?_, ?_⟩ <;>
    simp only [neopixel_brightness] <;> norm_num

/-- Claim C6, amended: the three threshold checks are not exclusive, so
each one overwrites the previous choice and the last matching check wins;
every ambient light reading below 2000 therefore resolves to brightness 1,
and every reading of 2000 or more keeps the initial 0.25.  In particular a
reading of 1000 resolves to 1. -/
theorem brightness_table_actual :
    ∀ light : Nat, neopixel_brightness light = if light < 2000 then 1 else 1 / 4 := by
  intro light
  unfold neopixel_brightness
  by_cases h7 : light < 700 <;> by_cases h15 : light < 1500 <;> by_cases h20 : light < 2000 <;>
    simp [h7, h15, h20] <;> omega

/-- aq_magtag.py line 131: the class-based controller schedules the normal
time alarm at the current monotonic time plus REFRESH_TIME seconds. -/
def aq_time_alarm_deadline (now : Nat) : Nat := now + REFRESH_TIME

/-- code.py line 72: the monolithic controller schedules the normal time
alarm at the current monotonic time plus REFRESH_TIME * 60 seconds. -/
def code_time_alarm_deadline (now : Nat) : Nat := now + REFRESH_TIME * 60

/-- Claim C9, counterexample: at monotonic time 0 the class-based
controller schedules the normal time alarm for 600 seconds while the
monolithic controller schedules it for 36000 seconds, so the two variants
do not construct the alarm with the same deadline. -/
theorem time_alarm_deadlines_differ_at_zero :
    aq_time_alarm_deadline 0 = 600 ∧ code_time_alarm_deadline 0 = 36000 ∧
    aq_time_alarm_deadline 0 ≠ code_time_alarm_deadline 0 := by
  decide

/-- Claim C9, amended: the two controller variants are not equivalent on
normal sleep scheduling; for every current monotonic time the class-based
controller schedules now + REFRESH_TIME while the monolithic controller
schedules now + REFRESH_TIME * 60, which is always 35400 seconds later. -/
theorem time_alarm_deadlines_always_differ :
    ∀ now : Nat,
      aq_time_alarm_deadline now = now + REFRESH_TIME ∧
      code_time_alarm_deadline now = now + REFRESH_TIME * 60 ∧
      code_time_alarm_deadline now = aq_time_alarm_deadline now + 35400 := by
  intro now
  refine ⟨rfl, rfl, ?_⟩
  unfold code_time_alarm_deadline aq_time_alarm_deadline REFRESH_TIME
  omega

/-- The names bound at module level by constants.py: its own two imports
(lines 4 and 5) and the eight constants it defines (lines 8 to 27).  The
name SLEEP_MEMORY_SLOT_PIN_ALARM is not among them. -/
def constants_module_names : List String :=
  ["board", "microcontroller",
   "REFRESH_TIME", "SLEEP_MEMORY_SLOT_BACKOFF", "SLEEP_MEMORY_SLOT_BACKOFF_TIMES",
   "MINIMUM_BACKOFF", "MAXIMUM_BACKOFF", "MAX_BACKOFF_COUNT",
   "PM25_STANDBY_PIN", "PM25_SENSOR_WARMUP_SECONDS"]

/-- boot.py line 6: the names boot.py requests from the constants module. -/
def boot_from_constants_imports : List String := ["SLEEP_MEMORY_SLOT_PIN_ALARM"]

/-- code.py lines 15 to 23: the names code.py requests from the constants
module. -/
def code_from_constants_imports : List String :=
  ["REFRESH_TIME", "MAXIMUM_BACKOFF", "SLEEP_MEMORY_SLOT_BACKOFF_TIMES",
   "SLEEP_MEMORY_SLOT_BACKOFF", "SLEEP_MEMORY_SLOT_PIN_ALARM",
   "MINIMUM_BACKOFF", "MAX_BACKOFF_COUNT"]

/-- Result of executing a Python module whose body begins with a
from-import statement: either the import raises ImportError on the first
requested name that the imported module does not define, in which case no
later statement of the module body runs, or every requested name is found
and the body runs. -/
inductive ModuleRun where
  | importError (missing : String)
  | bodyRuns
  deriving DecidableEq, Repr

/-- Python semantics of a from-import list: binding proceeds name by name
and fails with ImportError at the first name the module does not define. -/
def run_from_import (defined requested : List String) : ModuleRun :=
  match requested.find? (fun n => !(defined.contains n)) with
  | some missing => ModuleRun.importError missing
  | none => ModuleRun.bodyRuns

/-- Claim C10: both boot.py and code.py request the name
SLEEP_MEMORY_SLOT_PIN_ALARM from the constants module, that name is not
defined there, and consequently both files raise ImportError at their
constants import, before any statement of the pin-staging or
wake-handling logic runs. -/
theorem missing_pin_alarm_slot_import_fails :
    run_from_import constants_module_names boot_from_constants_imports =
      ModuleRun.importError "SLEEP_MEMORY_SLOT_PIN_ALARM" ∧
    run_from_import constants_module_names code_from_constants_imports =
      ModuleRun.importError "SLEEP_MEMORY_SLOT_PIN_ALARM" ∧
    constants_module_names.contains "SLEEP_MEMORY_SLOT_PIN_ALARM" = false := by
  decide

/-- aq_magtag.py lines 424 to 458: push_to_io pushes one value to the
remote feed.  When debug is set it skips the network entirely and falls
through to return the initial failed_push = False.  Otherwise it makes up
to three attempts: a successful attempt sets failed_push to False and
breaks out of the loop; an attempt that raises RuntimeError sets
failed_push to True and continues.  The function returns the final value
of failed_push.  The embedding takes the behavior of the underlying push
collaborator as a function from the attempt index to success, and returns
the final failed_push flag together with the number of attempts made. -/
def pushAttempts (attempt : Nat → Bool) : Nat → Nat → Bool → Bool × Nat
  | x, 0, failed_push => (failed_push, x)
  | x, fuel + 1, _ =>
    if attempt x then (false, x + 1)
    else pushAttempts attempt (x + 1) fuel true

/-- Entry point of the push operation; see pushAttempts. -/
def push_to_io (debug : Bool) (attempt : Nat → Bool) : Bool × Nat :=
  if debug then (false, 0) else pushAttempts attempt 0 3 false

/-- A push collaborator that fails on the first two attempts and succeeds
on the third. -/
def failTwiceThenSucceed (x : Nat) : Bool := 2 ≤ x

/-- A push collaborator that fails on every attempt. -/
def alwaysFail (_x : Nat) : Bool := false

/-- Claim C4, evaluated at its own scenarios: with a collaborator that
fails twice and then succeeds on the third attempt the code makes 3
attempts and returns False even though delivery succeeded, and with a
collaborator that always fails it makes exactly 3 attempts and returns
True.  The returned Boolean is the failed_push flag, the inversion of the
delivered-successfully result that both the claim and the docstring of
push_to_io describe. -/
theorem push_returns_inverted_success_flag :
    push_to_io false failTwiceThenSucceed = (false, 3) ∧
    push_to_io false alwaysFail = (true, 3) := by
  decide

/-- A single raw particulate reading: the mapping from field name to
numeric count that the PM25 driver returns (a Python dict, modeled as an
association list with string keys). -/
abbrev Reading := List (String × ℚ)

/-- aq_magtag.py line 99 (code.py line 27): one sample in debug mode, ten
otherwise. -/
def num_samples (debug : Bool) : Nat := if debug then 1 else 10

/-- aq_magtag.py lines 380 to 405 (identical loop in code.py lines 194 to
213): the sampling loop.  The behavior of the sensor is supplied as a list
with one entry per loop iteration: some reading when pm25.read() would
succeed on that iteration, none when it would raise RuntimeError.  At the
start of each iteration the loop checks whether more than 3 readings have
failed so far and if so calls deep_sleep_exponential_backoff, which never
returns; otherwise a failed read increments failed_readings and continues,
and a successful read appends the measurement.  failed_readings is never
reset.  The result is either the collected measurements or the memory and
outcome of the escalation call. -/
def samplerLoop (mem : SleepMemory) (failed_readings : Nat) :
    List (Option Reading) → List Reading ⊕ (SleepMemory × BackoffOutcome)
  | [] => Sum.inl []
  | r :: rs =>
    if failed_readings > 3 then Sum.inr (deep_sleep_exponential_backoff mem)
    else
      match r with
      | some m =>
        match samplerLoop mem failed_readings rs with
        | Sum.inl ms => Sum.inl (m :: ms)
        | Sum.inr e => Sum.inr e
      | none => samplerLoop mem (failed_readings + 1) rs

/-- Entry point of the sampling operation: the loop starts with
failed_readings = 0 and an empty measurement list. -/
def get_pm25_measurements (mem : SleepMemory) (reads : List (Option Reading)) :
    List Reading ⊕ (SleepMemory × BackoffOutcome) :=
  samplerLoop mem 0 reads

/-- Number of failing entries in a list of per-iteration read outcomes. -/
def countFailures (reads : List (Option Reading)) : Nat :=
  (reads.filter (fun r => r.isNone)).length

/-- Helper: a successful read at the head does not change the failure
count. -/
theorem countFailures_cons_some (m : Reading) (l : List (Option Reading)) :
    countFailures (some m :: l) = countFailures l := by
  simp [countFailures]

/-- Helper: a failed read at the head adds one to the failure count. -/
theorem countFailures_cons_none (l : List (Option Reading)) :
    countFailures (none :: l) = countFailures l + 1 := by
  simp [countFailures]

/-- Helper: the sampling loop escalates into backoff exactly when some
iteration starts with more than 3 failures accumulated so far, counting
from the initial value of failed_readings. -/
theorem samplerLoop_exhausts_iff (mem : SleepMemory) :
    ∀ (reads : List (Option Reading)) (failed : Nat),
      (samplerLoop mem failed reads).isRight = true ↔
        ∃ k, k < reads.length ∧ 3 < failed + countFailures (reads.take k) := by
  intro reads
  induction reads with
  | nil =>
    intro failed
    simp [samplerLoop]
  | cons r rs ih =>
    intro failed
    by_cases hf : failed > 3
    · have hred : samplerLoop mem failed (r :: rs) =
          Sum.inr (deep_sleep_exponential_backoff mem) := by
        simp only [samplerLoop]
        rw [if_pos hf]
      rw [hred]
      simp only [Sum.isRight, true_iff]
      exact ⟨0, by simp, by simpa [countFailures] using hf⟩
    · cases r with
      | some m =>
        have hred : (samplerLoop mem failed (some m :: rs)).isRight =
            (samplerLoop mem failed rs).isRight := by
          simp only [samplerLoop]
          rw [if_neg hf]
          cases hrec : samplerLoop mem failed rs <;> simp
        rw [hred, ih failed]
        constructor
        · rintro ⟨k, hk, h3⟩
          refine ⟨k + 1, by simpa using hk, ?_⟩
          simpa [List.take_succ_cons, countFailures_cons_some] using h3
        · rintro ⟨k, hk, h3⟩
          cases k with
          | zero =>
            simp [countFailures] at h3
            omega
          | succ j =>
            refine ⟨j, by simpa using hk, ?_⟩
            simpa [List.take_succ_cons, countFailures_cons_some] using h3
      | none =>
        have hred : samplerLoop mem failed (none :: rs) =
            samplerLoop mem (failed + 1) rs := by
          simp only [samplerLoop]
          rw [if_neg hf]
        rw [hred, ih (failed + 1)]
        constructor
        · rintro ⟨k, hk, h3⟩
          refine ⟨k + 1, by simpa using hk, ?_⟩
          rw [List.take_succ_cons, countFailures_cons_none]
          omega
        · rintro ⟨k, hk, h3⟩
          cases k with
          | zero =>
            simp [countFailures] at h3
            omega
          | succ j =>
            refine ⟨j, by simpa using hk, ?_⟩
            rw [List.take_succ_cons, countFailures_cons_none] at h3
            omega

/-- Claim C5, amended: the failure counter is cumulative for the batch and
is never reset by a successful read; the sampler escalates into the
backoff path exactly when some loop iteration begins with strictly more
than 3 failed reads accumulated over the whole batch, regardless of
whether the failures were consecutive. -/
theorem sampler_exhausts_iff_cumulative_failures
    (mem : SleepMemory) (reads : List (Option Reading)) :
    (get_pm25_measurements mem reads).isRight = true ↔
      ∃ k, k < reads.length ∧ 3 < countFailures (reads.take k) := by
  have h := samplerLoop_exhausts_iff mem reads 0
  simpa [get_pm25_measurements] using h

/-- A reading that carries all nine display fields of the PM25 driver. -/
def fullReading : Reading :=
  [("pm10 standard", 7), ("pm25 standard", 7), ("pm100 standard", 7),
   ("particles 03um", 1), ("particles 05um", 1), ("particles 10um", 1),
   ("particles 25um", 1), ("particles 50um", 1), ("particles 100um", 1)]

/-- A failure pattern of length 10 (the normal sample count) in which
every failed read is separated from the next by a successful read:
fail, ok, fail, ok, fail, ok, fail, ok, ok, ok. -/
def sepPattern : List (Option Reading) :=
  [none, some fullReading, none, some fullReading, none, some fullReading,
   none, some fullReading, some fullReading, some fullReading]

/-- Claim C5, counterexample: under the separated failure pattern the
fourth failure is reached at iteration 7 even though every failure is
followed by a successful read, so iteration 8 starts with 4 accumulated
failures and the sampler escalates into backoff instead of returning a
batch.  The counter is not reset by the intervening successes. -/
theorem separated_failures_still_exhaust_sampler :
    sepPattern.length = num_samples false ∧
    get_pm25_measurements ⟨0, 0⟩ sepPattern =
      Sum.inr (⟨15, 1⟩, BackoffOutcome.sleeps (SleepOutcome.backoffSleep 15)) := by
  constructor
  · decide
  · rfl

/-- aq_magtag.py line 415 (code.py line 226): feed keys are the reading
column names with spaces replaced by dashes. -/
def feedKey (column : String) : String :=
  String.mk (column.data.map (fun c => if c = ' ' then '-' else c))

/-- Python sum(i[column] for i in measurements): adds the value of the
column over all readings; none models the KeyError raised when a reading
lacks the column. -/
def sumField (column : String) : List Reading → Option ℚ
  | [] => some 0
  | m :: ms =>
    match m.lookup column, sumField column ms with
    | some v, some s => some (v + s)
    | _, _ => none

/-- aq_magtag.py lines 411 to 419 (code.py lines 221 to 234), inner loop
over the columns of the first reading: for each column the average is the
column sum divided by the number of readings, stored under the feed key;
when debug is not set the average is additionally pushed to the uplink
feed air-quality-office.feedKey.  The pushes are returned alongside the
mapping so that the side effect is part of the modeled result; none models
a KeyError escaping from the sum. -/
def averagesLoop (debug : Bool) (measurements : List Reading) :
    List String → Option (List (String × ℚ) × List (String × ℚ))
  | [] => some ([], [])
  | col :: cols =>
    match sumField col measurements, averagesLoop debug measurements cols with
    | some s, some (rest, pushes) =>
      let avg := s / (measurements.length : ℚ)
      let fk := feedKey col
      some ((fk, avg) :: rest,
        if debug then pushes else (String.append "air-quality-office." fk, avg) :: pushes)
    | _, _ => none

/-- aq_magtag.py lines 407 to 422: get_pm25_averages returns the empty
mapping for an empty batch (the truthiness guard on measurements) and
otherwise averages every column of the first reading. -/
def get_pm25_averages (debug : Bool) (measurements : List Reading) :
    Option (List (String × ℚ) × List (String × ℚ)) :=
  match measurements with
  | [] => some ([], [])
  | m0 :: _ => averagesLoop debug measurements (m0.map Prod.fst)

/-- The batch of ten readings whose pm10-standard field runs from 1 to 10,
used by the aggregation scenarios of the claim. -/
def specBatch10 : List Reading :=
  [[("pm10 standard", 1)], [("pm10 standard", 2)], [("pm10 standard", 3)],
   [("pm10 standard", 4)], [("pm10 standard", 5)], [("pm10 standard", 6)],
   [("pm10 standard", 7)], [("pm10 standard", 8)], [("pm10 standard", 9)],
   [("pm10 standard", 10)]]

/-- Claim C8, counterexample: outside debug mode the aggregation operation
does not merely produce its result; on the ten-reading batch it also
performs an uplink push of the computed average to the feed
air-quality-office.pm10-standard, so it is not free of side effects. -/
theorem aggregation_pushes_to_uplink :
    get_pm25_averages false specBatch10 =
      some ([("pm10-standard", 11 / 2)],
        [("air-quality-office.pm10-standard", 11 / 2)]) ∧
    ([("air-quality-office.pm10-standard", (11 : ℚ) / 2)] : List (String × ℚ)) ≠ [] := by
  constructor
  · simp [get_pm25_averages, specBatch10, averagesLoop, sumField, feedKey, List.lookup]
    norm_num
    rfl
  · simp

/-- Claim C8, amended: the aggregation is deterministic and computes the
arithmetic mean per field, yielding 5.5 for the field whose ten readings
are 1 through 10 and the empty mapping for an empty batch; however, when
debug mode is off it additionally pushes each per-field average to the
uplink feed as a side effect, so it is pure only in debug mode. -/
theorem aggregation_mean_values :
    get_pm25_averages true ([] : List Reading) = some ([], []) ∧
    get_pm25_averages false ([] : List Reading) = some ([], []) ∧
    get_pm25_averages true specBatch10 = some ([("pm10-standard", 11 / 2)], []) ∧
    get_pm25_averages false specBatch10 =
      some ([("pm10-standard", 11 / 2)],
        [("air-quality-office.pm10-standard", 11 / 2)]) := by
  refine ⟨rfl, rfl, ?_, ?_⟩ <;>
    · simp [get_pm25_averages, specBatch10, averagesLoop, sumField, feedKey, List.lookup]
      norm_num
      try rfl

/-- The nine field names whose averaged values process_events reads out of
the aggregate mapping for the display labels (aq_magtag.py lines 502 to
507); indexing with a key the mapping lacks raises KeyError. -/
def displayKeys : List String :=
  ["pm10-standard", "pm25-standard", "pm100-standard",
   "particles-03um", "particles-05um", "particles-10um",
   "particles-25um", "particles-50um", "particles-100um"]

/-- First display key missing from the aggregate mapping, in the order the
labels are formatted, if any. -/
def firstMissing (avgs : List (String × ℚ)) : List String → Option String
  | [] => none
  | k :: ks => if (avgs.lookup k).isSome then firstMissing avgs ks else some k

/-- Overall outcome of one process_events cycle: a transition into deep
sleep, or an error that no handler catches (KeyError from a missing
aggregate key, ConnectionError from the expired backoff budget). -/
inductive CycleOutcome where
  | sleeping (o : SleepOutcome)
  | uncaughtKeyError (key : String)
  | uncaughtConnectionError
  deriving DecidableEq, Repr

/-- aq_magtag.py lines 483 to 519: process_events samples, averages,
formats the display labels and goes to sleep.  get_sht31d_readings and the
battery push only push auxiliary telemetry and cannot alter control flow
(push_to_io catches its RuntimeError internally), so they are omitted.
If the sampling loop escalates, its escalation outcome is the outcome of
the cycle (a raised ConnectionError propagates uncaught).  Otherwise the
averages are computed; the label formatting then indexes the mapping with
the nine display keys, and the first missing key raises KeyError, which no
caller catches.  Only when all keys are present does the cycle reach
clear_backoff followed by deep_sleep.  The empty key string stands for the
unknown column of a KeyError raised inside the averaging sum itself. -/
def process_events (debug : Bool) (mem : SleepMemory) (reads : List (Option Reading)) :
    SleepMemory × CycleOutcome :=
  match get_pm25_measurements mem reads with
  | Sum.inr (mem1, BackoffOutcome.fatal) => (mem1, CycleOutcome.uncaughtConnectionError)
  | Sum.inr (mem1, BackoffOutcome.sleeps o) => (mem1, CycleOutcome.sleeping o)
  | Sum.inl measurements =>
    match get_pm25_averages debug measurements with
    | none => (mem, CycleOutcome.uncaughtKeyError "")
    | some (pm25_averages, _pushes) =>
      match firstMissing pm25_averages displayKeys with
      | some k => (mem, CycleOutcome.uncaughtKeyError k)
      | none =>
        (clear_backoff mem, CycleOutcome.sleeping (deep_sleep false (clear_backoff mem)))

/-- Claim C3, code bug, evaluated at the failing input: in debug mode the
sample count is 1, so a single failed read yields an empty batch without
tripping the failure threshold; the aggregate is then the empty mapping
and the label formatting raises KeyError on pm10-standard, which nothing
catches.  The cycle ends in an uncaught error at the top level instead of
a sleep transition, and the backoff store is left untouched. -/
theorem empty_batch_raises_keyerror :
    process_events true ⟨0, 0⟩ (List.replicate (num_samples true) none) =
      (⟨0, 0⟩, CycleOutcome.uncaughtKeyError "pm10-standard") := by
  decide

/-- aq_magtag.py lines 166 to 185 (code.py lines 94 to 109): the pin-alarm
branch computes the neopixel brightness from the ambient light reading,
lights the neopixels white, waits six seconds and calls deep_sleep() with
backoff left at its default False.  clear_backoff is not called anywhere
on this path, so the backoff slots are passed through unchanged. -/
def handle_alarms_pin_alarm (light : Nat) (mem : SleepMemory) :
    ℚ × SleepMemory × SleepOutcome :=
  (neopixel_brightness light, mem, deep_sleep false mem)

/-- Claim C7, counterexample: a pin-alarm wake with the persisted backoff
state (30, 2) transitions into normal deep sleep with the store still at
(30, 2), not cleared to (0, 0). -/
theorem pin_alarm_sleep_keeps_backoff :
    (handle_alarms_pin_alarm 1000 ⟨30, 2⟩).2 = (⟨30, 2⟩, SleepOutcome.normalSleep) ∧
    (⟨30, 2⟩ : SleepMemory) ≠ ⟨0, 0⟩ := by
  decide

/-- Helper: each escalation call either raises the fatal ConnectionError
or enters a backoff sleep; it never enters normal sleep. -/
theorem escalate_outcome_cases (mem : SleepMemory) :
    (deep_sleep_exponential_backoff mem).2 = BackoffOutcome.fatal ∨
      ∃ s, (deep_sleep_exponential_backoff mem).2 =
        BackoffOutcome.sleeps (SleepOutcome.backoffSleep s) := by
  unfold deep_sleep_exponential_backoff
  dsimp only
  split <;> split
  · exact Or.inl rfl
  · exact Or.inr ⟨_, rfl⟩
  · exact Or.inl rfl
  · exact Or.inr ⟨_, rfl⟩

/-- Helper: when the sampling loop escalates, the pair it returns is the
result of a deep_sleep_exponential_backoff call. -/
theorem samplerLoop_inr_from_escalate (mem : SleepMemory) :
    ∀ (reads : List (Option Reading)) (failed : Nat) (e : SleepMemory × BackoffOutcome),
      samplerLoop mem failed reads = Sum.inr e →
      ∃ m, e = deep_sleep_exponential_backoff m := by
  intro reads
  induction reads with
  | nil =>
    intro failed e h
    simp [samplerLoop] at h
  | cons r rs ih =>
    intro failed e h
    simp only [samplerLoop] at h
    by_cases hf : failed > 3
    · rw [if_pos hf] at h
      injection h with h
      exact ⟨mem, h.symm⟩
    · rw [if_neg hf] at h
      cases r with
      | some m =>
        cases hrec : samplerLoop mem failed rs with
        | inl ms =>
          rw [hrec] at h
          exact absurd h (by simp)
        | inr e2 =>
          rw [hrec] at h
          injection h with h
          subst h
          exact ih failed e2 hrec
      | none => exact ih (failed + 1) e h

/-- Claim C7, amended: of the two paths that enter Sleeping(Normal), only
the successful sampling cycle clears the Persistent Backoff Store: every
run of process_events that ends in normal sleep has stored (0, 0), while
the pin-alarm path enters normal sleep with the store passed through
unchanged, never cleared. -/
theorem normal_sleep_cleared_only_by_success :
    (∀ light mem, (handle_alarms_pin_alarm light mem).2 = (mem, SleepOutcome.normalSleep)) ∧
    (∀ debug mem reads,
      (process_events debug mem reads).2 = CycleOutcome.sleeping SleepOutcome.normalSleep →
      (process_events debug mem reads).1 = clear_backoff mem) := by
  constructor
  · intro light mem
    rfl
  · intro debug mem reads h
    unfold process_events get_pm25_measurements at h ⊢
    cases hs : samplerLoop mem 0 reads with
    | inl measurements =>
      simp only [hs] at h ⊢
      cases ha : get_pm25_averages debug measurements with
      | none => simp [ha] at h
      | some p =>
        obtain ⟨avgs, pushes⟩ := p
        simp only [ha] at h ⊢
        cases hm : firstMissing avgs displayKeys with
        | some k => simp [hm] at h
        | none => simp only [hm]
    | inr e =>
      obtain ⟨mem1, out⟩ := e
      obtain ⟨m0, hm0⟩ := samplerLoop_inr_from_escalate mem reads 0 (mem1, out) hs
      have hout : out = (deep_sleep_exponential_backoff m0).2 := by
        rw [← hm0]
      rcases escalate_outcome_cases m0 with hfatal | ⟨s, hsleeps⟩
      · have : out = BackoffOutcome.fatal := hout.trans hfatal
        subst this
        simp only [hs] at h
        simp at h
      · have : out = BackoffOutcome.sleeps (SleepOutcome.backoffSleep s) := hout.trans hsleeps
        subst this
        simp only [hs] at h
        simp at h

/-- Witness for the amended claim C7: a successful single-sample debug
cycle starting from the persisted state (30, 2) ends with the store
cleared. -/
theorem normal_sleep_cleared_only_by_success_witness :
    (process_events true ⟨30, 2⟩ [some fullReading]).1 = clear_backoff ⟨30, 2⟩ :=
  normal_sleep_cleared_only_by_success.2 true ⟨30, 2⟩ [some fullReading] (by decide)
